import Mathlib

/-!
# Verification of the multi-trip fuel-dispatch scheduler (`src/main.py`)

This file is a shallow embedding, in Lean 4, of the core logic of the
FastAPI fuel-delivery dispatch service:

* the travel-time estimator `get_driving_time` (with its module-level
  caches and layered fallback strategy),
* the single-round problem builder / solution extractor `run_ortools`
  (the OR-Tools CP solver itself is external; it is modelled as an
  oracle, and the constraints the builder registers with it are
  modelled as an explicit validity predicate on oracle answers), and
* the multi-round scheduling loop `solve_multitrip_vrp`.

Conventions of the embedding:

* Korean identifiers from the source are romanized (Lean identifiers
  cannot contain Hangul); the mapping is given at each structure.
  Korean *string literals* ("휘발유", "알뜰", "제주물류센터",
  "제주96바7408", …) are kept verbatim.
* Python ints are `Nat`/`Int`; Python floats are modelled as `ℚ` with
  `pyInt` for Python's truncating `int(·)` conversion.  The
  floating-point trigonometric haversine computation (lines 185–192 of
  the source) cannot be embedded exactly; the kilometre value it
  produces is carried as an environment parameter `haversineKm`.  No
  theorem below depends on its value.
* The module-level distance cache `DIST_CACHE` is threaded explicitly
  through `get_driving_time` as an association list (newest first —
  Python dict insert/lookup semantics for a single key).
* Network effects (the preloaded matrix download, the Naver mapping
  API) are environment parameters: `matrixData`, `naverDurationMs`.
* The external CP solver is an oracle `solver : Problem → Option
  Solution`; `validSolution` states exactly the constraints that
  `run_ortools` registers with OR-Tools (node ranges, the pinned
  per-vehicle start time, per-node time windows, the time-dimension
  propagation inequalities with slack, capacity, mandatory visits,
  each node visited at most once).
* In the scheduling loop the estimator is passed as a fixed function
  `gdt : String → String → Int` (the estimator for a given loaded
  dataset); its cache evolution is analysed separately in the
  estimator section.
* Python's stable `list.sort(key=...)` is modelled by
  `List.insertionSort` with the corresponding total preorder on keys;
  a stable sort by a total preorder is unique, so any stable sort
  yields the Python result.
-/

/- ==========================================
   1. Configuration constants (src/main.py lines 20–24)
   ========================================== -/

def DRIVER_START_TIME : Nat := 420
def LOADING_TIME : Nat := 30
def WAREHOUSE_CLOSE_TIME : Nat := 1080
def GASOLINE_UNLOADING_TIME : Nat := 40
def DIESEL_UNLOADING_TIME : Nat := 30

/- ==========================================
   2. Data model (src/main.py lines 42–82)
   ========================================== -/

/-- `OrderItem` (src/main.py lines 42–53), after the pydantic coercion
has run.  Romanization: `name` = 주유소명, `brand` = 브랜드,
`gasoline` = 휘발유, `kerosene` = 등유, `diesel` = 경유. -/
structure OrderItem where
  name : String
  brand : String := ""
  gasoline : Nat := 0
  kerosene : Nat := 0
  diesel : Nat := 0
  start_min : Nat := 420
  end_min : Nat := 1435
  priority : Nat := 2
deriving DecidableEq, Repr

instance : Inhabited OrderItem := ⟨{ name := "" }⟩

/-- `VehicleItem` (src/main.py lines 75–78).  Romanization:
`vehicleNo` = 차량번호, `fuelKind` = 유종, `capacity` = 수송용량. -/
structure VehicleItem where
  vehicleNo : String
  fuelKind : String
  capacity : Nat
deriving DecidableEq, Repr

instance : Inhabited VehicleItem := ⟨⟨"", "", 0⟩⟩

/-- The demanded amount of an order for the active product family:
`o.휘발유 if fuel_type == "휘발유" else (o.등유 + o.경유)`
(src/main.py line 233, also lines 463, 557). -/
def orderAmount (fuel_type : String) (o : OrderItem) : Nat :=
  if fuel_type = "휘발유" then o.gasoline else o.kerosene + o.diesel

/- ==========================================
   3. Distance estimator (src/main.py lines 87–193)
   ========================================== -/

/-- A coordinate pair from `NODE_INFO`. -/
structure Coord where
  lat : ℚ
  lon : ℚ
deriving DecidableEq

/-- The process-wide environment the estimator reads:
* `matrixData s e`: the preloaded `MATRIX_DATA` — `none` when no entry
  for `(s, e)` exists; `some none` when an entry exists but
  `float(...)` raises (the `except: pass` on line 152);
  `some (some q)` when the entry parses to the number `q`.
* `nodeInfo`: the preloaded `NODE_INFO` coordinates.
* `hasNaverKeys`: whether `NAVER_ID and NAVER_SECRET` are both set.
* `naverDurationMs st gl`: the mapping-API result for a coordinate
  pair — `some durMs` models a 200 response with `code == 0` and
  `summary.duration = durMs` milliseconds; `none` models any failure
  (timeout, non-200, `code != 0`, malformed payload).
* `haversineKm st gl`: the floating-point great-circle distance `R*c`
  computed on lines 187–192, carried abstractly (see file header). -/
structure GeoEnv where
  matrixData : String → String → Option (Option ℚ)
  nodeInfo : String → Option Coord
  hasNaverKeys : Bool
  naverDurationMs : Coord → Coord → Option Nat
  haversineKm : Coord → Coord → ℚ

/-- Python's `int(·)` on a rational: truncation toward zero. -/
def pyInt (q : ℚ) : Int := if q < 0 then -⌊-q⌋ else ⌊q⌋

/-- The cache key `f"{start_name}->{end_name}"` (line 140). -/
def distKey (s e : String) : String := s ++ "->" ++ e

/-- `DIST_CACHE`, threaded explicitly.  Insertion conses at the front;
`List.lookup` returns the newest binding, matching dict semantics. -/
abbrev DistCache := List (String × Int)

/-- Steps 2–4 of `get_driving_time` (src/main.py lines 155–193):
the no-coordinates default of 20, the Naver mapping API (which is the
only path that writes `DIST_CACHE`), and the haversine fallback
`max(5, int((dist_km / 40) * 60 * 1.3))`. -/
def get_driving_time_fallback (env : GeoEnv) (cache : DistCache) (s e : String) :
    Int × DistCache :=
  match env.nodeInfo s, env.nodeInfo e with
  | some st, some gl =>
      let hv : Int × DistCache :=
        (max 5 (pyInt (env.haversineKm st gl / 40 * 60 * (13/10 : ℚ))), cache)
      if env.hasNaverKeys then
        match env.naverDurationMs st gl with
        | some durMs =>
            let m : Int := (durMs / 60000 : Nat)
            (m, (distKey s e, m) :: cache)
        | none => hv
      else hv
  | _, _ => (20, cache)

/-- `get_driving_time` (src/main.py lines 139–193).  Returns the
estimated minutes together with the (possibly updated) `DIST_CACHE`.
Step 1 is the cache; the matrix path is
`max(5, int(float(MATRIX_DATA[s][e]) * 1.5))` and does *not* write the
cache; an unparseable matrix entry falls through exactly like a
missing one. -/
def get_driving_time (env : GeoEnv) (cache : DistCache) (s e : String) :
    Int × DistCache :=
  match cache.lookup (distKey s e) with
  | some v => (v, cache)
  | none =>
      match env.matrixData s e with
      | some (some q) => (max 5 (pyInt (q * (3/2 : ℚ))), cache)
      | _ => get_driving_time_fallback env cache s e

/- ==========================================
   4. Single-round problem builder and extraction
      (`run_ortools`, src/main.py lines 451–682)
   ========================================== -/

/-- The depot name `"제주물류센터"` (lines 252, 472). -/
def depotName : String := "제주물류센터"

/-- The routing problem `run_ortools` registers with OR-Tools:
* `locs`: `[depot] + [o.주유소명 for o in orders]` (line 473);
* `norders`: number of orders, so `N = norders + 1` nodes;
* `nveh`: number of vehicles;
* `durations`: the `N×N` travel-time matrix (lines 477–480);
* `service`: per-stop unloading minutes added on arrival at any
  non-depot node (lines 505–512);
* `windows`: `SetRange(order.start_min, order.end_min)` per order node
  (line 541);
* `startBound`: the `(SetMin, SetMax)` pair on each vehicle's start
  cumul var (lines 526–531) — both components equal;
* `penalties`: `none` for a mandatory order (no disjunction), `some p`
  for `AddDisjunction([index], p)` (lines 547–554);
* `demands`: `[0] + [amount o]` (line 557);
* `capacities`: `[v.수송용량 for v in vehicles]` (line 561). -/
structure Problem where
  locs : List String
  norders : Nat
  nveh : Nat
  durations : List (List Int)
  service : Nat
  windows : List (Nat × Nat)
  startBound : List (Nat × Nat)
  penalties : List (Option Nat)
  demands : List Nat
  capacities : List Nat
deriving DecidableEq

/-- Build the routing problem exactly as `run_ortools` does, given the
estimator function `gdt` (the `get_driving_time` of the loaded
dataset). -/
def buildProblem (gdt : String → String → Int) (orders : List OrderItem)
    (vehicles : List VehicleItem) (start_times : List Nat) (fuel_type : String) :
    Problem :=
  let locs := depotName :: orders.map (·.name)
  let N := locs.length
  { locs := locs
    norders := orders.length
    nveh := vehicles.length
    durations := (List.range N).map fun i => (List.range N).map fun j =>
      if i = j then 0 else gdt (locs.getD i "") (locs.getD j "")
    service := if fuel_type = "휘발유" then GASOLINE_UNLOADING_TIME else DIESEL_UNLOADING_TIME
    windows := orders.map fun o => (o.start_min, o.end_min)
    startBound := start_times.map fun s => (s, s)
    penalties := orders.map fun o => if o.priority = 1 then none else some 1000000
    demands := 0 :: orders.map (orderAmount fuel_type)
    capacities := vehicles.map (·.capacity) }

/-- An answer of the external CP solver, read off through the OR-Tools
accessors used on lines 599–651:
* `visits v`: the node sequence vehicle `v` traverses between its
  depot start and depot end (the `while not routing.IsEnd(index)` walk
  without the leading depot node);
* `startCumul v` / `endCumul v`: `solution.Min(time_dim.CumulVar(·))`
  at the vehicle's start resp. end index;
* `nodeCumul n`: the same at (the unique visit to) node `n`. -/
structure Solution where
  visits : Nat → List Nat
  startCumul : Nat → Nat
  nodeCumul : Nat → Nat
  endCumul : Nat → Nat

/-- The transit callback (lines 505–512): travel time plus the
unloading service time when arriving at a non-depot node. -/
def Problem.transit (p : Problem) (i j : Nat) : Int :=
  (p.durations.getD i []).getD j 0 + (if j ≠ 0 then (p.service : Int) else 0)

/-- Propagation of the `Time` dimension along vehicle `v`'s walk:
every cumul is bounded by the dimension capacity 1440, and each
successive cumul is at least the previous one plus the transit (the
solver may add nonnegative slack, i.e. waiting); the walk is closed by
the return arc to the depot, bounding `endCumul`. -/
def chainOk (p : Problem) (sol : Solution) (v : Nat) : Nat → Nat → List Nat → Bool
  | prev, prevT, [] =>
      decide ((sol.endCumul v : Int) ≥ (prevT : Int) + p.transit prev 0) &&
      decide (sol.endCumul v ≤ 1440)
  | prev, prevT, n :: rest =>
      decide ((sol.nodeCumul n : Int) ≥ (prevT : Int) + p.transit prev n) &&
      decide (sol.nodeCumul n ≤ 1440) &&
      chainOk p sol v n (sol.nodeCumul n) rest

/-- The conjunction of all constraints `run_ortools` registers with
the solver; a conformant external solver only returns assignments
satisfying it. -/
def validSolution (p : Problem) (sol : Solution) : Bool :=
  (List.range p.nveh).all (fun v =>
    let walk := sol.visits v
    walk.all (fun n => decide (1 ≤ n) && decide (n ≤ p.norders)) &&
    decide ((p.startBound.getD v (0, 0)).1 ≤ sol.startCumul v) &&
    decide (sol.startCumul v ≤ (p.startBound.getD v (0, 0)).2) &&
    decide (sol.startCumul v ≤ 1440) &&
    walk.all (fun n =>
      decide ((p.windows.getD (n - 1) (0, 0)).1 ≤ sol.nodeCumul n) &&
      decide (sol.nodeCumul n ≤ (p.windows.getD (n - 1) (0, 0)).2)) &&
    decide ((walk.map (p.demands.getD · 0)).sum ≤ p.capacities.getD v 0) &&
    chainOk p sol v 0 (sol.startCumul v) walk) &&
  decide (((List.range p.nveh).flatMap sol.visits).Nodup) &&
  (List.range p.norders).all (fun i =>
    match p.penalties.getD i none with
    | none => (List.range p.nveh).any (fun v => (sol.visits v).contains (i + 1))
    | some _ => true)

/-- One entry of a route's `path` list (lines 619–623, 643–647):
location name, arrival time (`solution.Min` of the time cumul var) and
the demand dropped there.  The presentational `lat`/`lon` fields are
omitted. -/
structure Stop where
  location : String
  time : Nat
  load : Nat
deriving DecidableEq, Repr

/-- A route as `run_ortools` returns it (lines 653–662), enriched with
the ghost field `nodes` recording the walk the `while` loop traversed
(the source keeps it implicitly through `path` and `fulfilled_indices`).
`start_time` / `end_time` are the cumul minima at the vehicle's start
and end (lines 636, 651); `total_load` accumulates `demands[node]`
over the walk (line 624). -/
structure Route where
  internal_idx : Nat
  start_time : Nat
  end_time : Nat
  total_load : Nat
  nodes : List Nat
  path : List Stop
deriving DecidableEq, Repr

/-- The walk of vehicle `v_idx`, turned into a route exactly as lines
605–662 do; `none` when `len(path) > 2` fails, i.e. the vehicle is
unused and its depot-only route is discarded. -/
def extractRoute (p : Problem) (sol : Solution) (v_idx : Nat) : Option Route :=
  let walk := sol.visits v_idx
  let path : List Stop :=
    { location := p.locs.getD 0 "", time := sol.startCumul v_idx, load := 0 } ::
    (walk.map fun n =>
      { location := p.locs.getD n "", time := sol.nodeCumul n,
        load := p.demands.getD n 0 }) ++
    [{ location := depotName, time := sol.endCumul v_idx, load := 0 }]
  if 2 < path.length then
    some { internal_idx := v_idx
           start_time := sol.startCumul v_idx
           end_time := sol.endCumul v_idx
           total_load := (walk.map (p.demands.getD · 0)).sum
           nodes := walk
           path := path }
  else none

/-- All kept routes of a solution (the `for v_idx in range(len(vehicles))`
loop, lines 605–662). -/
def extractRoutes (p : Problem) (sol : Solution) : List Route :=
  (List.range p.nveh).filterMap (extractRoute p sol)

/-- `fulfilled_indices` (lines 600, 611–613): the order index `n - 1`
for every node `n > 0` seen on any vehicle's walk.  Modelled as a list
with membership standing for set membership. -/
def fulfilledIdx (sol : Solution) (nveh : Nat) : List Nat :=
  (List.range nveh).flatMap fun v =>
    (sol.visits v).filterMap fun n => if 0 < n then some (n - 1) else none

/-- `run_ortools` (src/main.py lines 451–682): build the problem, ask
the external solver, extract the kept routes, and return them together
with `remaining = [orders[i] for i in range(len(orders)) if i not in
fulfilled_indices]` (line 681).  When the solver finds no solution the
walk loop never runs, so the result is `([], orders)`. -/
def run_ortools (gdt : String → String → Int) (solver : Problem → Option Solution)
    (orders : List OrderItem) (vehicles : List VehicleItem)
    (start_times : List Nat) (fuel_type : String) :
    List Route × List OrderItem :=
  let p := buildProblem gdt orders vehicles start_times fuel_type
  match solver p with
  | none => ([], orders)
  | some sol =>
      let fulfilled := fulfilledIdx sol p.nveh
      (extractRoutes p sol,
       (orders.enum.filter fun q => !(fulfilled.contains q.1)).map Prod.snd)

/- ==========================================
   5. Multi-round scheduler
      (`solve_multitrip_vrp`, src/main.py lines 229–449)
   ========================================== -/

/-- A route after the loop tags it (lines 318–319, 391–392):
`r['round'] = round_num; r['vehicle_id'] = ...`. -/
structure TaggedRoute where
  internal_idx : Nat
  start_time : Nat
  end_time : Nat
  total_load : Nat
  nodes : List Nat
  path : List Stop
  round : Nat
  vehicle_id : String
deriving DecidableEq, Repr

def tagRoute (r : Route) (round_num : Nat) (vid : String) : TaggedRoute :=
  { internal_idx := r.internal_idx, start_time := r.start_time,
    end_time := r.end_time, total_load := r.total_load, nodes := r.nodes,
    path := r.path, round := round_num, vehicle_id := vid }

/-- The mutable loop state: `vehicle_state` (arrival-at-depot time per
vehicle index, line 274), `vehicle_workload` (line 275),
`final_schedule` (line 276) and `pending_orders`. -/
structure LoopState where
  vstate : List Nat
  wload : List Nat
  sched : List TaggedRoute
  pending : List OrderItem
deriving Repr

/-- The sort key of `get_order_priority` (lines 253–259): `(0, 0)` for
a priority-1 order, else `(1, distance from the depot)`. -/
def orderKey (gdt : String → String → Int) (o : OrderItem) : Nat × Int :=
  if o.priority = 1 then (0, 0) else (1, gdt depotName o.name)

/-- Lexicographic comparison of sort keys, as Python compares tuples. -/
def keyLe (a b : Nat × Int) : Prop :=
  a.1 < b.1 ∨ (a.1 = b.1 ∧ a.2 ≤ b.2)

instance : DecidableRel keyLe := fun a b => by
  unfold keyLe; infer_instance

/-- `pending_orders.sort(key=get_order_priority)` (lines 261, 298,
335): Python's sort is stable, and a stable sort by a total preorder
is unique, so `List.insertionSort` by `keyLe` on the keys produces the
same list. -/
def sortOrders (gdt : String → String → Int) (l : List OrderItem) : List OrderItem :=
  l.insertionSort fun a b => keyLe (orderKey gdt a) (orderKey gdt b)

/-- `available_indices.sort(key=lambda i: vehicle_workload[i])`
(line 347), again a stable sort. -/
def sortByWorkload (wload : List Nat) (l : List Nat) : List Nat :=
  l.insertionSort fun i j => wload.getD i 0 ≤ wload.getD j 0

/-- `current_starts = [vehicle_state[i] + LOADING_TIME for i in
available_indices]` (lines 304, 368): the effective departure times
handed to `run_ortools`. -/
def currentStarts (vstate : List Nat) (avail : List Nat) : List Nat :=
  avail.map fun i => vstate.getD i 0 + LOADING_TIME

/-- `available_indices = [i for i, t in vehicle_state.items() if t <
WAREHOUSE_CLOSE_TIME]` (lines 287, 338). -/
def availableIndices (nveh : Nat) (vstate : List Nat) : List Nat :=
  (List.range nveh).filter fun i => vstate.getD i 0 < WAREHOUSE_CLOSE_TIME

/-- Applying one round's routes to the state (lines 381–393): look up
the real vehicle index through `available_indices[r['internal_idx']]`,
overwrite its `vehicle_state` with the route's `end_time`, accumulate
its workload, tag the route and append it to the schedule. -/
def applyRoutes (myV : List VehicleItem) (avail : List Nat) (round_num : Nat)
    (routes : List Route) (st : LoopState) : LoopState :=
  routes.foldl
    (fun acc r =>
      let real := avail.getD r.internal_idx 0
      { acc with
        vstate := acc.vstate.set real r.end_time
        wload := acc.wload.set real (acc.wload.getD real 0 + r.total_load)
        sched := acc.sched ++ [tagRoute r round_num (myV.getD real default).vehicleNo] })
    st

/-- The 알뜰 (budget-brand) preferred-vehicle phase of one round
(lines 291–332): when the family is gasoline, the dedicated vehicle
제주96바7408 exists and is available, split off the 알뜰 orders, run
the solver with only that vehicle, fold its routes into the state, and
return the order set the general phase should handle. -/
def prefPhase (gdt : String → String → Int) (solver : Problem → Option Solution)
    (fuel_type : String) (myV : List VehicleItem) (prefIdx : Option Nat)
    (round_num : Nat) (avail1 : List Nat) (st : LoopState) :
    List OrderItem × LoopState :=
  match prefIdx with
  | some p =>
      if fuel_type = "휘발유" ∧ p ∈ avail1 then
        let altteul := st.pending.filter fun o => o.brand = "알뜰"
        let sk := st.pending.filter fun o => ¬ o.brand = "알뜰"
        if altteul.isEmpty then (st.pending, st)
        else
          let altteulS := sortOrders gdt altteul
          let res := run_ortools gdt solver altteulS [myV.getD p default]
            (currentStarts st.vstate [p]) fuel_type
          if res.1.isEmpty then (altteulS ++ sk, st)
          else
            let st1 := res.1.foldl
              (fun acc r =>
                { acc with
                  vstate := acc.vstate.set p r.end_time
                  wload := acc.wload.set p (acc.wload.getD p 0 + r.total_load)
                  sched := acc.sched ++
                    [tagRoute r round_num (myV.getD p default).vehicleNo] })
              st
            (res.2 ++ sk, st1)
      else (st.pending, st)
  | none => (st.pending, st)

/-- The exclusion of the dedicated vehicle from the general phase
when SK orders remain (lines 349–356): if the family is gasoline and
any remaining order is not 알뜰-branded, drop 제주96바7408 from the
sorted available list. -/
def selectAvail (fuel_type : String) (prefIdx : Option Nat)
    (remaining_orders : List OrderItem) (avail2b : List Nat) : List Nat :=
  match prefIdx with
  | some p =>
      if fuel_type = "휘발유" ∧ remaining_orders.any (fun o => ¬ o.brand = "알뜰")
      then avail2b.filter (fun i => i ≠ p) else avail2b
  | none => avail2b

/-- One iteration of `for round_num in range(1, 6)` (lines 283–415).
The returned `Bool` is `false` exactly when the source hits one of its
`break` statements; the state changes made before the break (by the
preferred-vehicle phase) are kept, and — as in the source — a break at
the no-progress guard leaves `pending` untouched. -/
def roundStep (gdt : String → String → Int) (solver : Problem → Option Solution)
    (fuel_type : String) (myV : List VehicleItem) (prefIdx : Option Nat)
    (round_num : Nat) (st : LoopState) : LoopState × Bool :=
  if st.pending.isEmpty then (st, false)
  else
    let avail1 := availableIndices myV.length st.vstate
    if avail1.isEmpty then (st, false)
    else
      let pr := prefPhase gdt solver fuel_type myV prefIdx round_num avail1 st
      let st1 := pr.2
      let remaining_orders := sortOrders gdt pr.1
      let avail2a := availableIndices myV.length st1.vstate
      if avail2a.isEmpty then (st1, false)
      else
        let avail2b := sortByWorkload st1.wload avail2a
        let avail2 := selectAvail fuel_type prefIdx remaining_orders avail2b
        if avail2.isEmpty then (st1, false)
        else
          let curV := avail2.map fun i => myV.getD i default
          let res := run_ortools gdt solver remaining_orders curV
            (currentStarts st1.vstate avail2) fuel_type
          if res.1.isEmpty ∧ res.2.length = remaining_orders.length then (st1, false)
          else
            let st2 := applyRoutes myV avail2 round_num res.1 st1
            ({ st2 with pending := res.2 }, true)

/-- The round loop: run up to `k` more rounds starting at `round_num`,
stopping early when `roundStep` reports a break. -/
def runRounds (gdt : String → String → Int) (solver : Problem → Option Solution)
    (fuel_type : String) (myV : List VehicleItem) (prefIdx : Option Nat) :
    Nat → Nat → LoopState → LoopState
  | 0, _, st => st
  | k + 1, round_num, st =>
      let r := roundStep gdt solver fuel_type myV prefIdx round_num st
      if r.2 then runRounds gdt solver fuel_type myV prefIdx k (round_num + 1) r.1
      else r.1

/-- The result of `solve_multitrip_vrp` (lines 248 and 440–449),
restricted to the fields the specification talks about; the orders
still pending at loop exit are the unassigned orders of the
`skipped_list` (lines 418–438). -/
structure SolveResult where
  status : String
  routes : List TaggedRoute
  unassigned : List OrderItem
  total_delivered : Nat
deriving Repr

/-- `solve_multitrip_vrp` (src/main.py lines 229–449): filter the
orders to the family's positive demands and the vehicles to the
family, return `"skipped"` when either is empty, otherwise sort the
pending orders, locate 제주96바7408 when the family is gasoline, and
run up to five rounds from the initial per-vehicle state
`DRIVER_START_TIME`. -/
def solve_multitrip_vrp (gdt : String → String → Int)
    (solver : Problem → Option Solution) (all_orders : List OrderItem)
    (all_vehicles : List VehicleItem) (fuel_type : String) : SolveResult :=
  let pending0 := all_orders.filter fun o => 0 < orderAmount fuel_type o
  let myV := all_vehicles.filter fun v => v.fuelKind = fuel_type
  if pending0.isEmpty ∨ myV.isEmpty then
    { status := "skipped", routes := [], unassigned := [], total_delivered := 0 }
  else
    let pending1 := sortOrders gdt pending0
    let prefIdx := if fuel_type = "휘발유"
      then myV.findIdx? (fun v => v.vehicleNo = "제주96바7408") else none
    let st0 : LoopState :=
      { vstate := List.replicate myV.length DRIVER_START_TIME
        wload := List.replicate myV.length 0
        sched := []
        pending := pending1 }
    let fin := runRounds gdt solver fuel_type myV prefIdx 5 1 st0
    { status := "success"
      routes := fin.sched
      unassigned := fin.pending
      total_delivered := (fin.sched.map (·.total_load)).sum }

/- ==========================================
   6. Formalized claim statements and concrete fixtures
   ========================================== -/

/-- A solver oracle is conformant when every answer it returns
satisfies the constraints the builder registered (§6 of the spec:
"any conformant constraint-based routing engine"). -/
def ValidOracle (solver : Problem → Option Solution) : Prop :=
  ∀ p s, solver p = some s → validSolution p s = true

/-- Claim C1 as stated, parametric in the (nowhere-defined) lunch
window: whenever a selected vehicle's computed next-start
(`next_available_time` + reload) falls inside
`[lunch_start, lunch_start + lunch_duration)`, the start bound handed
to the solver is pinned to exactly the window's end. -/
def C1claimProp (lunch_start lunch_duration : Nat) : Prop :=
  ∀ (gdt : String → String → Int) (orders : List OrderItem)
    (myV : List VehicleItem) (vstate : List Nat) (avail : List Nat)
    (fuel_type : String) (i : Nat),
    i < avail.length →
    lunch_start ≤ vstate.getD (avail.getD i 0) 0 + LOADING_TIME →
    vstate.getD (avail.getD i 0) 0 + LOADING_TIME < lunch_start + lunch_duration →
    (buildProblem gdt orders (avail.map fun k => myV.getD k default)
        (currentStarts vstate avail) fuel_type).startBound.getD i (0, 0)
      = (lunch_start + lunch_duration, lunch_start + lunch_duration)

/-- Claim C2 as stated, at the per-vehicle state update (src/main.py
lines 386–389): applying a round's route sets the used vehicle's
`next_available_time` to `completion_time + reload`. -/
def C2claimProp : Prop :=
  ∀ (myV : List VehicleItem) (avail : List Nat) (round_num : Nat)
    (r : Route) (st : LoopState),
    (applyRoutes myV avail round_num [r] st).vstate.getD
        (avail.getD r.internal_idx 0) 0
      = r.end_time + LOADING_TIME

/-- Claim C4 as stated: for any conformant solver oracle, no two
distinct routes of the final schedule share a round number and a
vehicle id. -/
def C4claimProp : Prop :=
  ∀ (gdt : String → String → Int) (solver : Problem → Option Solution)
    (orders : List OrderItem) (vehicles : List VehicleItem) (fuel_type : String),
    ValidOracle solver →
    (solve_multitrip_vrp gdt solver orders vehicles fuel_type).routes.Pairwise
      fun a b => ¬ (a.round = b.round ∧ a.vehicle_id = b.vehicle_id)

/-- Claim C5 as stated: every resolution path of the estimator
returns at least 5 minutes. -/
def C5claimProp : Prop :=
  ∀ (env : GeoEnv) (cache : DistCache) (s e : String),
    5 ≤ (get_driving_time env cache s e).1

/-- Claim C6 as stated: there is a fixed threshold below which a
preloaded matrix value is converted (km → minutes) and at or above
which the stored value is used directly as minutes (with or without
the 5-minute floor — both readings are allowed, making the claim as
weak as possible). -/
def C6claimProp : Prop :=
  ∃ T : ℚ, ∀ (env : GeoEnv) (s e : String) (q : ℚ),
    env.matrixData s e = some (some q) →
    T ≤ q →
    ((get_driving_time env [] s e).1 = pyInt q ∨
     (get_driving_time env [] s e).1 = max 5 (pyInt q))

/-- Claim C7 as stated (the memoization half): after any call, the
returned value is stored in the cache under the ordered key. -/
def C7claimProp : Prop :=
  ∀ (env : GeoEnv) (cache : DistCache) (s e : String),
    ((get_driving_time env cache s e).2).lookup (distKey s e)
      = some (get_driving_time env cache s e).1

/-- A constant estimator function (all pairs 5 minutes apart), used
by the concrete scenarios below. -/
def gdtConst : String → String → Int := fun _ _ => 5

/- Concrete gasoline scenario exercising the 알뜰 preferred-vehicle
double dispatch: two 알뜰 orders of 50 each and the single dedicated
vehicle 제주96바7408 of capacity 50. -/

def ordA : OrderItem := { name := "주유소A", brand := "알뜰", gasoline := 50 }
def ordB : OrderItem := { name := "주유소B", brand := "알뜰", gasoline := 50 }
def veh7408 : VehicleItem :=
  { vehicleNo := "제주96바7408", fuelKind := "휘발유", capacity := 50 }

/-- Round-1 알뜰-phase problem: orders `[A, B]`, vehicle 7408,
pinned start `420 + 30 = 450`. -/
def P1 : Problem := buildProblem gdtConst [ordA, ordB] [veh7408] [450] "휘발유"

/-- A conformant answer to `P1`: visit only node 1 (order A), arriving
at `450 + 5 + 40 = 495`, back at the depot by 600. -/
def s1 : Solution :=
  { visits := fun v => if v = 0 then [1] else []
    startCumul := fun _ => 450
    nodeCumul := fun n => if n = 1 then 495 else 0
    endCumul := fun _ => 600 }

/-- Round-1 general-phase problem: the leftover 알뜰 order `[B]`,
vehicle 7408 again (no SK orders remain, so it is not excluded),
pinned start `600 + 30 = 630`. -/
def P2 : Problem := buildProblem gdtConst [ordB] [veh7408] [630] "휘발유"

/-- A conformant answer to `P2`: visit node 1 (order B) at 675, back
by 680. -/
def s2 : Solution :=
  { visits := fun v => if v = 0 then [1] else []
    startCumul := fun _ => 630
    nodeCumul := fun n => if n = 1 then 675 else 0
    endCumul := fun _ => 680 }

/-- A deterministic solver oracle answering exactly the two problems
of the scenario. -/
def solverC4 : Problem → Option Solution := fun p =>
  if p = P1 then some s1 else if p = P2 then some s2 else none

/- Concrete diesel scenario: one order, one vehicle, one round. -/

def ordD : OrderItem := { name := "주유소D", kerosene := 60 }
def vehD : VehicleItem :=
  { vehicleNo := "제주96바7400", fuelKind := "등경유", capacity := 100 }

/-- The diesel round-1 problem: order `[D]`, vehicle 7400, pinned
start `420 + 30 = 450`. -/
def PD : Problem := buildProblem gdtConst [ordD] [vehD] [450] "등경유"

/-- A conformant answer to `PD`: visit node 1 at `450 + 5 + 30 = 485`,
back by 600. -/
def sD : Solution :=
  { visits := fun v => if v = 0 then [1] else []
    startCumul := fun _ => 450
    nodeCumul := fun n => if n = 1 then 485 else 0
    endCumul := fun _ => 600 }

def solverD : Problem → Option Solution := fun p =>
  if p = PD then some sD else none

/-- The route `run_ortools` extracts from `(PD, sD)`. -/
def rD0 : Route :=
  { internal_idx := 0
    start_time := 450
    end_time := 600
    total_load := 60
    nodes := [1]
    path := [{ location := "제주물류센터", time := 450, load := 0 },
             { location := "주유소D", time := 485, load := 60 },
             { location := "제주물류센터", time := 600, load := 0 }] }

/-- A fresh one-vehicle loop state (vehicle back at depot at 420). -/
def stD : LoopState := { vstate := [420], wload := [0], sched := [], pending := [] }

/-- An environment whose matrix misses, whose coordinates are present
for `"A"` and `"B"`, and whose mapping API answers with a 60000 ms
(1 minute) driving duration. -/
def apiEnv : GeoEnv :=
  { matrixData := fun _ _ => none
    nodeInfo := fun n => if n = "A" ∨ n = "B" then some ⟨0, 0⟩ else none
    hasNaverKeys := true
    naverDurationMs := fun _ _ => some 60000
    haversineKm := fun _ _ => 0 }

/-- An environment whose preloaded matrix holds the value `q` for the
pair `("A", "B")` and nothing else; no coordinates, no API keys. -/
def matrixEnv (q : ℚ) : GeoEnv :=
  { matrixData := fun a b => if a = "A" ∧ b = "B" then some (some q) else none
    nodeInfo := fun _ => none
    hasNaverKeys := false
    naverDurationMs := fun _ _ => none
    haversineKm := fun _ _ => 0 }

/-- A solver oracle that never finds a solution. -/
def solverNone : Problem → Option Solution := fun _ => none

/-- Two schedule entries may share a round number and a vehicle id
only when they belong to the dedicated gasoline vehicle 제주96바7408
(the amended form of claim C4). -/
def sameRoundConflict (fuel_type : String) (a b : TaggedRoute) : Prop :=
  a.round = b.round → a.vehicle_id = b.vehicle_id →
    a.vehicle_id = "제주96바7408" ∧ fuel_type = "휘발유"

/- ==========================================
   7. Theorems — distance estimator (claims C5, C6, C7)
   ========================================== -/

/-- Unfolding: a cache hit short-circuits (line 141). -/
theorem gdt_lookup_some {env : GeoEnv} {cache : DistCache} {s e : String} {v : Int}
    (h : cache.lookup (distKey s e) = some v) :
    get_driving_time env cache s e = (v, cache) := by
  simp [get_driving_time, h]

/-- Unfolding: a parseable matrix entry is converted with `* 1.5` and
floored at 5, without touching the cache (lines 144–151). -/
theorem gdt_matrix_some {env : GeoEnv} {cache : DistCache} {s e : String} {q : ℚ}
    (h1 : cache.lookup (distKey s e) = none)
    (h2 : env.matrixData s e = some (some q)) :
    get_driving_time env cache s e = (max 5 (pyInt (q * (3/2 : ℚ))), cache) := by
  simp [get_driving_time, h1, h2]

/-- Unfolding: a missing or unparseable matrix entry falls through to
steps 2–4 (lines 152–153). -/
theorem gdt_fallthrough {env : GeoEnv} {cache : DistCache} {s e : String}
    (h1 : cache.lookup (distKey s e) = none)
    (h2 : env.matrixData s e = none ∨ env.matrixData s e = some none) :
    get_driving_time env cache s e = get_driving_time_fallback env cache s e := by
  rcases h2 with h2 | h2 <;> simp [get_driving_time, h1, h2]

/-- The fallback either leaves the cache unchanged or conses exactly
its own result under the ordered-pair key (the API path, line 180). -/
theorem fallback_cache_shape (env : GeoEnv) (cache : DistCache) (s e : String) :
    (get_driving_time_fallback env cache s e).2 = cache ∨
      (get_driving_time_fallback env cache s e).2
        = (distKey s e, (get_driving_time_fallback env cache s e).1) :: cache := by
  cases h3 : env.nodeInfo s with
  | none => simp [get_driving_time_fallback, h3]
  | some cs =>
      cases h4 : env.nodeInfo e with
      | none => simp [get_driving_time_fallback, h3, h4]
      | some cg =>
          cases h5 : env.hasNaverKeys with
          | false => simp [get_driving_time_fallback, h3, h4, h5]
          | true =>
              cases h6 : env.naverDurationMs cs cg with
              | none => simp [get_driving_time_fallback, h3, h4, h5, h6]
              | some durMs => simp [get_driving_time_fallback, h3, h4, h5, h6]

/-- Looking up the key just inserted finds it. -/
theorem lookup_cons_self (k : String) (v : Int) (c : DistCache) :
    List.lookup k ((k, v) :: c) = some v := by
  simp [List.lookup]

/-- In the fallback, every non-API outcome is at least 5 minutes, and
the API outcome is the provider duration divided by 60000. -/
theorem fallback_floor (env : GeoEnv) (cache : DistCache) (s e : String) :
    5 ≤ (get_driving_time_fallback env cache s e).1 ∨
      (∃ cs cg durMs, env.nodeInfo s = some cs ∧ env.nodeInfo e = some cg ∧
        env.hasNaverKeys = true ∧ env.naverDurationMs cs cg = some durMs ∧
        (get_driving_time_fallback env cache s e).1 = ((durMs / 60000 : Nat) : Int)) := by
  cases h3 : env.nodeInfo s with
  | none => left; simp [get_driving_time_fallback, h3]
  | some cs =>
      cases h4 : env.nodeInfo e with
      | none => left; simp [get_driving_time_fallback, h3, h4]
      | some cg =>
          cases h5 : env.hasNaverKeys with
          | false =>
              left
              have hval : (get_driving_time_fallback env cache s e).1
                  = max 5 (pyInt (env.haversineKm cs cg / 40 * 60 * (13/10 : ℚ))) := by
                simp [get_driving_time_fallback, h3, h4, h5]
              rw [hval]
              exact le_max_left _ _
          | true =>
              cases h6 : env.naverDurationMs cs cg with
              | none =>
                  left
                  have hval : (get_driving_time_fallback env cache s e).1
                      = max 5 (pyInt (env.haversineKm cs cg / 40 * 60 * (13/10 : ℚ))) := by
                    simp [get_driving_time_fallback, h3, h4, h5, h6]
                  rw [hval]
                  exact le_max_left _ _
              | some durMs =>
                  right
                  refine ⟨cs, cg, durMs, rfl, rfl, rfl, h6, ?_⟩
                  simp [get_driving_time_fallback, h3, h4, h5, h6]

/-- Claim C5 (corrected), counterexample: with a missing matrix,
known coordinates and a mapping-API answer of 60000 ms, the estimator
returns 1 minute — the API path has no 5-minute floor. -/
theorem C5_counterexample : ¬ C5claimProp := by
  intro h
  exact absurd (h apiEnv [] "A" "B") (by decide)

/-- Claim C5, amended: every resolution path of the estimator returns
at least the 5-minute floor, except that a cache hit returns the
cached value as-is and the mapping-API path returns the provider's
duration divided by 60000 with no floor. -/
theorem C5_floor_except_api :
    ∀ (env : GeoEnv) (cache : DistCache) (s e : String),
      5 ≤ (get_driving_time env cache s e).1
      ∨ cache.lookup (distKey s e) = some (get_driving_time env cache s e).1
      ∨ (∃ cs cg durMs, env.nodeInfo s = some cs ∧ env.nodeInfo e = some cg ∧
          env.hasNaverKeys = true ∧ env.naverDurationMs cs cg = some durMs ∧
          (get_driving_time env cache s e).1 = ((durMs / 60000 : Nat) : Int)) := by
  intro env cache s e
  cases h1 : cache.lookup (distKey s e) with
  | some v =>
      right; left
      rw [gdt_lookup_some h1]
  | none =>
      cases h2 : env.matrixData s e with
      | some oq =>
          cases oq with
          | some q =>
              left
              rw [gdt_matrix_some h1 h2]
              exact le_max_left _ _
          | none =>
              rw [gdt_fallthrough h1 (Or.inr h2)]
              rcases fallback_floor env cache s e with h | h
              · exact Or.inl h
              · exact Or.inr (Or.inr h)
      | none =>
          rw [gdt_fallthrough h1 (Or.inl h2)]
          rcases fallback_floor env cache s e with h | h
          · exact Or.inl h
          · exact Or.inr (Or.inr h)

/-- Python `int(·)` of an integer-valued rational is that integer. -/
theorem pyInt_intCast (k : ℤ) : pyInt (k : ℚ) = k := by
  unfold pyInt
  split
  · rw [show -((k : ℚ)) = ((-k : ℤ) : ℚ) by push_cast; ring, Int.floor_intCast]
    ring
  · rw [Int.floor_intCast]

/-- Claim C6 (corrected), counterexample: no km-vs-minutes threshold
exists.  Whatever threshold `T` one postulates, the matrix value
`2 * max(⌈T⌉, 500)` lies above it, yet the estimator still multiplies
it by 1.5 instead of using it directly as minutes. -/
theorem C6_counterexample : ¬ C6claimProp := by
  rintro ⟨T, hT⟩
  set n : ℤ := max ⌈T⌉ 500 with hn
  have hn500 : (500 : ℤ) ≤ n := le_max_right _ _
  have hTn : T ≤ ((2 * n : ℤ) : ℚ) := by
    calc T ≤ (⌈T⌉ : ℚ) := Int.le_ceil T
      _ ≤ (n : ℚ) := by exact_mod_cast le_max_left _ _
      _ ≤ ((2 * n : ℤ) : ℚ) := by
        have h0 : (0 : ℚ) ≤ (n : ℚ) := by exact_mod_cast (by linarith : (0 : ℤ) ≤ n)
        push_cast
        linarith
  have hmx : (matrixEnv ((2 * n : ℤ) : ℚ)).matrixData "A" "B"
      = some (some ((2 * n : ℤ) : ℚ)) := by
    simp [matrixEnv]
  have h := hT (matrixEnv ((2 * n : ℤ) : ℚ)) "A" "B" ((2 * n : ℤ) : ℚ) hmx hTn
  rw [gdt_matrix_some (by simp) hmx] at h
  have e1 : ((2 * n : ℤ) : ℚ) * (3/2 : ℚ) = ((3 * n : ℤ) : ℚ) := by push_cast; ring
  rw [e1, pyInt_intCast, pyInt_intCast] at h
  rw [max_eq_right (by linarith : (5 : ℤ) ≤ 3 * n),
    max_eq_right (by linarith : (5 : ℤ) ≤ 2 * n)] at h
  rcases h with h | h <;> omega

/-- Claim C6, amended: whenever the preloaded matrix has a parseable
entry `q` (and the pair is not cached), the estimator always returns
`max 5 (int(q * 1.5))` — the stored value is unconditionally treated
as kilometres and converted at the assumed 40 km/h; no magnitude
threshold switches to using it directly as minutes. -/
theorem C6_matrix_always_converts :
    ∀ (env : GeoEnv) (cache : DistCache) (s e : String) (q : ℚ),
      cache.lookup (distKey s e) = none →
      env.matrixData s e = some (some q) →
      (get_driving_time env cache s e).1 = max 5 (pyInt (q * (3/2 : ℚ))) := by
  intro env cache s e q h1 h2
  rw [gdt_matrix_some h1 h2]

/-- Witness for `C6_matrix_always_converts` at the concrete entry 10:
the result is `max 5 (int(10 * 1.5)) = 15`. -/
theorem C6_matrix_always_converts_witness :
    List.lookup (distKey "A" "B") ([] : DistCache) = none ∧
    (matrixEnv 10).matrixData "A" "B" = some (some 10) ∧
    (get_driving_time (matrixEnv 10) [] "A" "B").1 = max 5 (pyInt (10 * (3/2 : ℚ))) :=
  ⟨by decide, by decide,
    C6_matrix_always_converts (matrixEnv 10) [] "A" "B" 10 (by decide) (by decide)⟩

/-- Claim C7 (corrected), counterexample: a matrix-path call returns
15 minutes but stores nothing — only the mapping-API path memoizes. -/
theorem C7_counterexample : ¬ C7claimProp := by
  intro h
  exact absurd (h (matrixEnv 10) [] "A" "B") (by decide)

/-- The fallback (steps 2–4) writes the cache exactly when it
resolves through the mapping API: the cache changes iff both
coordinates are known, the API keys are set and the provider answers
— and then the call returns the provider duration in minutes, consed
under the ordered-pair key.  The haversine and no-coordinates paths
leave the cache untouched. -/
theorem fallback_store_iff (env : GeoEnv) (cache : DistCache) (s e : String) :
    (get_driving_time_fallback env cache s e).2 ≠ cache ↔
      ∃ cs cg durMs, env.nodeInfo s = some cs ∧ env.nodeInfo e = some cg ∧
        env.hasNaverKeys = true ∧ env.naverDurationMs cs cg = some durMs ∧
        get_driving_time_fallback env cache s e
          = (((durMs / 60000 : Nat) : Int),
             (distKey s e, ((durMs / 60000 : Nat) : Int)) :: cache) := by
  cases h3 : env.nodeInfo s with
  | none => simp [get_driving_time_fallback, h3]
  | some cs =>
      cases h4 : env.nodeInfo e with
      | none => simp [get_driving_time_fallback, h3, h4]
      | some cg =>
          cases h5 : env.hasNaverKeys with
          | false => simp [get_driving_time_fallback, h3, h4, h5]
          | true =>
              cases h6 : env.naverDurationMs cs cg with
              | none => simp [get_driving_time_fallback, h3, h4, h5, h6]
              | some durMs =>
                  have hval : get_driving_time_fallback env cache s e
                      = (((durMs / 60000 : Nat) : Int),
                         (distKey s e, ((durMs / 60000 : Nat) : Int)) :: cache) := by
                    simp [get_driving_time_fallback, h3, h4, h5, h6]
                  rw [hval]
                  constructor
                  · intro _
                    exact ⟨cs, cg, durMs, rfl, rfl, rfl, h6, rfl⟩
                  · intro _
                    exact List.cons_ne_self _ _

/-- Claim C7, amended: the estimator reads the cache first — a hit
short-circuits with the cached value and an unchanged cache — and
ONLY the mapping-API path writes the cache: the cache changes iff the
lookup misses, the preloaded matrix has no parseable entry, both
coordinates are known, the API keys are set and the provider answers
— and then exactly the call's own result is consed under the
ordered-pair key.  The matrix, haversine and no-coordinates paths
leave the cache untouched, and an immediate repeat call returns the
same value (determinism for a given loaded dataset). -/
theorem C7_cache_behavior :
    ∀ (env : GeoEnv) (cache : DistCache) (s e : String),
      (∀ v : Int, cache.lookup (distKey s e) = some v →
        get_driving_time env cache s e = (v, cache)) ∧
      ((get_driving_time env cache s e).2 ≠ cache ↔
        (cache.lookup (distKey s e) = none ∧
         (env.matrixData s e = none ∨ env.matrixData s e = some none) ∧
         ∃ cs cg durMs, env.nodeInfo s = some cs ∧ env.nodeInfo e = some cg ∧
           env.hasNaverKeys = true ∧ env.naverDurationMs cs cg = some durMs ∧
           get_driving_time env cache s e
             = (((durMs / 60000 : Nat) : Int),
                (distKey s e, ((durMs / 60000 : Nat) : Int)) :: cache))) ∧
      (get_driving_time env (get_driving_time env cache s e).2 s e).1
        = (get_driving_time env cache s e).1 := by
  intro env cache s e
  refine ⟨fun v h => gdt_lookup_some h, ?_, ?_⟩
  · cases h1 : cache.lookup (distKey s e) with
    | some v =>
        rw [gdt_lookup_some h1]
        simp
    | none =>
        cases h2 : env.matrixData s e with
        | some oq =>
            cases oq with
            | some q =>
                rw [gdt_matrix_some h1 h2]
                simp
            | none =>
                rw [gdt_fallthrough h1 (Or.inr h2), fallback_store_iff]
                simp
        | none =>
            rw [gdt_fallthrough h1 (Or.inl h2), fallback_store_iff]
            simp
  · have hshape : (get_driving_time env cache s e).2 = cache ∨
        (get_driving_time env cache s e).2
          = (distKey s e, (get_driving_time env cache s e).1) :: cache := by
      cases h1 : cache.lookup (distKey s e) with
      | some v => rw [gdt_lookup_some h1]; left; rfl
      | none =>
          cases h2 : env.matrixData s e with
          | some oq =>
              cases oq with
              | some q => rw [gdt_matrix_some h1 h2]; left; rfl
              | none =>
                  rw [gdt_fallthrough h1 (Or.inr h2)]
                  exact fallback_cache_shape env cache s e
          | none =>
              rw [gdt_fallthrough h1 (Or.inl h2)]
              exact fallback_cache_shape env cache s e
    rcases hshape with h | h
    · rw [h]
    · rw [h, gdt_lookup_some (lookup_cons_self _ _ _)]

/-- Witness for `C7_cache_behavior`: a pre-seeded cache entry of 7
minutes short-circuits the call — the matrix entry 10 is ignored and
the cache is returned unchanged. -/
theorem C7_cache_behavior_witness :
    ([(distKey "A" "B", (7 : Int))] : DistCache).lookup (distKey "A" "B")
      = some 7 ∧
    get_driving_time (matrixEnv 10) [(distKey "A" "B", (7 : Int))] "A" "B"
      = (7, [(distKey "A" "B", (7 : Int))]) :=
  ⟨by decide,
   (C7_cache_behavior (matrixEnv 10) [(distKey "A" "B", (7 : Int))] "A" "B").1 7
     (by decide)⟩

/- ==========================================
   8. Theorems — single-round builder and extraction
      (claims C3, C9, C10)
   ========================================== -/

/-- `contains` on a `Nat` list is membership. -/
theorem contains_eq_decide_mem (l : List Nat) (a : Nat) :
    l.contains a = decide (a ∈ l) := by
  rw [Bool.eq_iff_iff]
  simp [List.contains, List.elem_iff]

/-- Claim C3 (confirmed): in the problem built for a round, a
priority-1 order gets no disjunction (it can never be dropped), and
any order of priority ≥ 2 gets a single disjunction with the fixed
penalty 1 000 000 (src/main.py lines 547–554). -/
theorem C3_priority_disjunction :
    ∀ (gdt : String → String → Int) (orders : List OrderItem)
      (vehicles : List VehicleItem) (starts : List Nat) (fuel_type : String)
      (i : Nat) (h : i < orders.length),
      (orders[i].priority = 1 →
        (buildProblem gdt orders vehicles starts fuel_type).penalties.getD i none
          = none) ∧
      (2 ≤ orders[i].priority →
        (buildProblem gdt orders vehicles starts fuel_type).penalties.getD i none
          = some 1000000) := by
  intro gdt orders vehicles starts fuel_type i h
  have hp : (buildProblem gdt orders vehicles starts fuel_type).penalties.getD i none
      = (if orders[i].priority = 1 then none else some 1000000) := by
    have hl : i < ((orders.map fun o =>
        if o.priority = 1 then none else some 1000000) :
          List (Option Nat)).length := by
      simpa using h
    simp only [buildProblem]
    rw [List.getD_eq_getElem _ _ hl, List.getElem_map]
  constructor
  · intro h1
    rw [hp, if_pos h1]
  · intro h2
    rw [hp, if_neg (by omega)]

/-- Witness for `C3_priority_disjunction`: the priority-2 order `ordA`
at index 0 is droppable with penalty 1 000 000. -/
theorem C3_priority_disjunction_witness :
    (0 : Nat) < [ordA].length ∧ 2 ≤ ordA.priority ∧
    (buildProblem gdtConst [ordA] [veh7408] [450] "휘발유").penalties.getD 0 none
      = some 1000000 :=
  ⟨by decide, by decide,
    (C3_priority_disjunction gdtConst [ordA] [veh7408] [450] "휘발유" 0
      (by decide)).2 (by decide)⟩

/-- Reading off the fields of a kept route. -/
theorem extractRoute_some_elim {p : Problem} {sol : Solution} {v : Nat} {r : Route}
    (h : extractRoute p sol v = some r) :
    r.internal_idx = v ∧ r.start_time = sol.startCumul v ∧
    r.end_time = sol.endCumul v ∧ r.nodes = sol.visits v := by
  simp only [extractRoute] at h
  split at h
  · injection h with h
    subst h
    exact ⟨rfl, rfl, rfl, rfl⟩
  · cases h

/-- A vehicle with a nonempty walk yields a kept route. -/
theorem extractRoute_eq_some {p : Problem} {sol : Solution} {v : Nat}
    (hw : sol.visits v ≠ []) :
    ∃ r, extractRoute p sol v = some r ∧ r.nodes = sol.visits v := by
  unfold extractRoute
  rw [if_pos]
  · exact ⟨_, rfl, rfl⟩
  · simp only [List.length_cons, List.length_append, List.length_map,
      List.length_singleton]
    have : 0 < (sol.visits v).length := List.length_pos.mpr hw
    omega

/-- An order index is fulfilled iff some kept route's walk visits its
node. -/
theorem mem_fulfilledIdx_iff (p : Problem) (sol : Solution) (i : Nat) :
    i ∈ fulfilledIdx sol p.nveh ↔
      ∃ r ∈ extractRoutes p sol, (i + 1) ∈ r.nodes := by
  unfold fulfilledIdx extractRoutes
  constructor
  · intro h
    obtain ⟨v, hv, hmem⟩ := List.mem_flatMap.mp h
    obtain ⟨n, hn, heq⟩ := List.mem_filterMap.mp hmem
    have hn1 : n = i + 1 := by
      by_cases h0 : 0 < n
      · rw [if_pos h0] at heq
        injection heq with heq
        omega
      · rw [if_neg h0] at heq
        cases heq
    subst hn1
    obtain ⟨r, hr, hnodes⟩ :=
      @extractRoute_eq_some p sol v (List.ne_nil_of_mem hn)
    exact ⟨r, List.mem_filterMap.mpr ⟨v, hv, hr⟩, hnodes ▸ hn⟩
  · rintro ⟨r, hr, hn⟩
    obtain ⟨v, hv, hext⟩ := List.mem_filterMap.mp hr
    obtain ⟨-, -, -, hnodes⟩ := extractRoute_some_elim hext
    refine List.mem_flatMap.mpr ⟨v, hv, List.mem_filterMap.mpr ⟨i + 1, ?_, ?_⟩⟩
    · rw [← hnodes]
      exact hn
    · rw [if_pos (by omega)]
      simp

/-- Claim C9 (confirmed): for a conformant solver oracle, the input
orders of one `run_ortools` call are exactly partitioned by the
result — the remaining list consists, in input order, of precisely
those orders whose node is visited by no returned route (so each
order-index lands in a route or in the remaining list, never both),
and the remaining list is a sublist of the input (relative order
preserved). -/
theorem C9_partition :
    ∀ (gdt : String → String → Int) (solver : Problem → Option Solution)
      (orders : List OrderItem) (vehicles : List VehicleItem)
      (starts : List Nat) (fuel_type : String),
      ValidOracle solver →
      ((run_ortools gdt solver orders vehicles starts fuel_type).2).Sublist orders ∧
      (run_ortools gdt solver orders vehicles starts fuel_type).2
        = (orders.enum.filter fun q =>
            !decide (∃ r ∈ (run_ortools gdt solver orders vehicles starts fuel_type).1,
              (q.1 + 1) ∈ r.nodes)).map Prod.snd := by
  intro gdt solver orders vehicles starts fuel_type _
  cases hsol : solver (buildProblem gdt orders vehicles starts fuel_type) with
  | none =>
      have hrun : run_ortools gdt solver orders vehicles starts fuel_type
          = ([], orders) := by
        simp only [run_ortools, hsol]
      rw [hrun]
      constructor
      · exact List.Sublist.refl _
      · have : (orders.enum.filter fun q =>
            !decide (∃ r ∈ (([], orders) :
                List Route × List OrderItem).1, (q.1 + 1) ∈ r.nodes)) = orders.enum := by
          apply List.filter_eq_self.mpr
          intro q _
          simp
        rw [this, List.enum_map_snd]
  | some sol =>
      have hrun : run_ortools gdt solver orders vehicles starts fuel_type
          = (extractRoutes (buildProblem gdt orders vehicles starts fuel_type) sol,
             (orders.enum.filter fun q =>
               !(fulfilledIdx sol
                  (buildProblem gdt orders vehicles starts fuel_type).nveh).contains
                    q.1).map Prod.snd) := by
        simp only [run_ortools, hsol]
      rw [hrun]
      constructor
      · have hsub : ((orders.enum.filter fun q =>
            !(fulfilledIdx sol
               (buildProblem gdt orders vehicles starts fuel_type).nveh).contains
                 q.1).map Prod.snd).Sublist (orders.enum.map Prod.snd) :=
          (List.filter_sublist _).map _
        rw [List.enum_map_snd] at hsub
        exact hsub
      · have hcongr : ∀ q ∈ orders.enum,
            (!(fulfilledIdx sol
                (buildProblem gdt orders vehicles starts fuel_type).nveh).contains q.1)
              = !decide (∃ r ∈ extractRoutes
                  (buildProblem gdt orders vehicles starts fuel_type) sol,
                  (q.1 + 1) ∈ r.nodes) := by
          intro q _
          rw [contains_eq_decide_mem]
          congr 1
          rw [Bool.eq_iff_iff]
          simp only [decide_eq_true_eq]
          exact mem_fulfilledIdx_iff _ sol q.1
        rw [List.filter_congr hcongr]

/-- Witness for `C9_partition`: a solver that finds no solution is
conformant, and the single diesel order is then carried over intact. -/
theorem C9_partition_witness :
    ValidOracle solverNone ∧
    ((run_ortools gdtConst solverNone [ordD] [vehD] [450] "등경유").2).Sublist [ordD] :=
  ⟨(fun _ _ h => nomatch h),
   (C9_partition gdtConst solverNone [ordD] [vehD] [450] "등경유"
      (fun _ _ h => nomatch h)).1⟩

/-- Projection out of `validSolution`: the pinned start-cumul bounds
hold for every vehicle. -/
theorem validSolution_start {p : Problem} {sol : Solution}
    (h : validSolution p sol = true) {v : Nat} (hv : v < p.nveh) :
    (p.startBound.getD v (0, 0)).1 ≤ sol.startCumul v ∧
    sol.startCumul v ≤ (p.startBound.getD v (0, 0)).2 := by
  simp only [validSolution, Bool.and_eq_true, List.all_eq_true,
    decide_eq_true_eq] at h
  obtain ⟨⟨hA, _⟩, _⟩ := h
  obtain ⟨⟨⟨⟨⟨⟨hnodes, hs1⟩, hs2⟩, hs3⟩, hwin⟩, hcap⟩, hchain⟩ :=
    hA v (List.mem_range.mpr hv)
  exact ⟨hs1, hs2⟩

/-- Claim C10 (confirmed): the builder pins each selected vehicle's
start-cumul variable to exactly `next_available_time + LOADING_TIME`
(`SetMin` and `SetMax` to the same value, lines 526–531, fed from
line 368), so every route a conformant solution yields for that
vehicle departs exactly at that instant. -/
theorem C10_pinned_departure :
    ∀ (gdt : String → String → Int) (orders : List OrderItem)
      (myV : List VehicleItem) (vstate : List Nat) (avail : List Nat)
      (fuel_type : String) (sol : Solution) (r : Route),
      validSolution (buildProblem gdt orders (avail.map fun k => myV.getD k default)
          (currentStarts vstate avail) fuel_type) sol = true →
      r ∈ extractRoutes (buildProblem gdt orders (avail.map fun k => myV.getD k default)
          (currentStarts vstate avail) fuel_type) sol →
      r.start_time = vstate.getD (avail.getD r.internal_idx 0) 0 + LOADING_TIME ∧
      (buildProblem gdt orders (avail.map fun k => myV.getD k default)
          (currentStarts vstate avail) fuel_type).startBound.getD r.internal_idx (0, 0)
        = (r.start_time, r.start_time) := by
  intro gdt orders myV vstate avail fuel_type sol r hvalid hr
  obtain ⟨v, hvmem, hext⟩ := List.mem_filterMap.mp hr
  obtain ⟨hidx, hstart, -, -⟩ := extractRoute_some_elim hext
  have hvn : v < (buildProblem gdt orders (avail.map fun k => myV.getD k default)
      (currentStarts vstate avail) fuel_type).nveh := List.mem_range.mp hvmem
  have hvlen : v < avail.length := by
    simpa [buildProblem] using hvn
  have hstartsLen : v < (currentStarts vstate avail).length := by
    simpa [currentStarts] using hvlen
  have hsb : (buildProblem gdt orders (avail.map fun k => myV.getD k default)
      (currentStarts vstate avail) fuel_type).startBound.getD v (0, 0)
      = ((currentStarts vstate avail).getD v 0, (currentStarts vstate avail).getD v 0) := by
    simp only [buildProblem]
    rw [List.getD_eq_getElem _ _ (by simpa using hstartsLen), List.getElem_map,
      List.getD_eq_getElem _ _ hstartsLen]
  have hcs : (currentStarts vstate avail).getD v 0
      = vstate.getD (avail.getD v 0) 0 + LOADING_TIME := by
    rw [List.getD_eq_getElem _ _ hstartsLen]
    simp only [currentStarts]
    rw [List.getElem_map, List.getD_eq_getElem _ _ hvlen]
  obtain ⟨h1, h2⟩ := validSolution_start hvalid hvn
  rw [hsb] at h1 h2
  have hEq : sol.startCumul v = (currentStarts vstate avail).getD v 0 :=
    le_antisymm h2 h1
  subst hidx
  constructor
  · rw [hstart, hEq, hcs]
  · rw [hsb, hstart, hEq]

/-- Witness for `C10_pinned_departure`: in the diesel scenario the
extracted route departs exactly at `420 + 30 = 450`. -/
theorem C10_pinned_departure_witness :
    validSolution (buildProblem gdtConst [ordD] ([0].map fun k => [vehD].getD k default)
        (currentStarts [420] [0]) "등경유") sD = true ∧
    rD0 ∈ extractRoutes (buildProblem gdtConst [ordD]
        ([0].map fun k => [vehD].getD k default)
        (currentStarts [420] [0]) "등경유") sD ∧
    rD0.start_time = [420].getD ([0].getD rD0.internal_idx 0) 0 + LOADING_TIME :=
  ⟨by decide, by decide,
    (C10_pinned_departure gdtConst [ordD] [vehD] [420] [0] "등경유" sD rD0
      (by decide) (by decide)).1⟩

/- ==========================================
   9. Theorems — multi-round scheduler (claims C8, C1, C2)
   ========================================== -/

/-- Claim C8 (confirmed): when the family's filtered pending-order
set or filtered vehicle set is empty, `solve_multitrip_vrp` returns
status `"skipped"` with an empty route list (src/main.py lines
229–248); the embedded function is total, so no error is raised. -/
theorem C8_skipped_on_empty :
    ∀ (gdt : String → String → Int) (solver : Problem → Option Solution)
      (all_orders : List OrderItem) (all_vehicles : List VehicleItem)
      (fuel_type : String),
      ((all_orders.filter fun o => 0 < orderAmount fuel_type o) = [] ∨
       (all_vehicles.filter fun v => v.fuelKind = fuel_type) = []) →
      (solve_multitrip_vrp gdt solver all_orders all_vehicles fuel_type).status
        = "skipped" ∧
      (solve_multitrip_vrp gdt solver all_orders all_vehicles fuel_type).routes
        = [] := by
  intro gdt solver os vs fuel_type h
  have hc : ((os.filter fun o => 0 < orderAmount fuel_type o).isEmpty = true ∨
      (vs.filter fun v => v.fuelKind = fuel_type).isEmpty = true) := by
    rcases h with h | h
    · left; simp [h]
    · right; simp [h]
  have hrw : solve_multitrip_vrp gdt solver os vs fuel_type
      = { status := "skipped", routes := [], unassigned := [],
          total_delivered := 0 } := by
    simp only [solve_multitrip_vrp]
    rw [if_pos hc]
  rw [hrw]
  exact ⟨rfl, rfl⟩

/-- Witness for `C8_skipped_on_empty`: a diesel request whose only
order is gasoline-only and whose only vehicle is a gasoline tanker is
skipped. -/
theorem C8_skipped_on_empty_witness :
    ((([ordA].filter fun o => 0 < orderAmount "등경유" o) = [] ∨
      (([veh7408].filter fun v => v.fuelKind = "등경유") = []))) ∧
    (solve_multitrip_vrp gdtConst solverNone [ordA] [veh7408] "등경유").status
      = "skipped" :=
  ⟨Or.inl (by decide),
   (C8_skipped_on_empty gdtConst solverNone [ordA] [veh7408] "등경유"
      (Or.inl (by decide))).1⟩

/-- The effective departure handed to the solver for slot `j`. -/
theorem currentStarts_getD (vstate avail : List Nat) (j : Nat)
    (hj : j < avail.length) :
    (currentStarts vstate avail).getD j 0
      = vstate.getD (avail.getD j 0) 0 + LOADING_TIME := by
  have hj' : j < (currentStarts vstate avail).length := by
    simpa [currentStarts] using hj
  rw [List.getD_eq_getElem _ _ hj']
  simp only [currentStarts]
  rw [List.getElem_map, List.getD_eq_getElem _ _ hj]

/-- The builder pins slot `i`'s start bound to the effective departure
(`SetMin = SetMax`, lines 526–531). -/
theorem startBound_getD (gdt : String → String → Int) (orders : List OrderItem)
    (myV : List VehicleItem) (vstate avail : List Nat) (fuel_type : String)
    (i : Nat) (hi : i < avail.length) :
    (buildProblem gdt orders (avail.map fun k => myV.getD k default)
        (currentStarts vstate avail) fuel_type).startBound.getD i (0, 0)
      = (vstate.getD (avail.getD i 0) 0 + LOADING_TIME,
         vstate.getD (avail.getD i 0) 0 + LOADING_TIME) := by
  have hstartsLen : i < (currentStarts vstate avail).length := by
    simpa [currentStarts] using hi
  have hsb : (buildProblem gdt orders (avail.map fun k => myV.getD k default)
      (currentStarts vstate avail) fuel_type).startBound.getD i (0, 0)
      = ((currentStarts vstate avail).getD i 0,
         (currentStarts vstate avail).getD i 0) := by
    simp only [buildProblem]
    rw [List.getD_eq_getElem _ _ (by simpa using hstartsLen), List.getElem_map,
      List.getD_eq_getElem _ _ hstartsLen]
  rw [hsb, currentStarts_getD _ _ _ hi]

/-- Claim C1 (corrected), counterexample at the canonical noon lunch
window `[720, 780)`: a vehicle back at the depot at 700 gets the
pinned start `700 + 30 = 730`, which lies inside the window but is
not pushed to 780 — no lunch-window adjustment exists in the code. -/
theorem C1_counterexample : ¬ C1claimProp 720 60 := by
  intro h
  have h2 := h gdtConst [] [] [700] [0] "휘발유" 0 (by decide) (by decide) (by decide)
  exact absurd h2 (by decide)

/-- Claim C1, amended: for every purported lunch window, the
effective start passed to the solver is always
`next_available_time + 30`; even when that value falls strictly
inside the window it stays there and is never moved to the window's
end. -/
theorem C1_no_lunch_adjustment :
    ∀ (gdt : String → String → Int) (orders : List OrderItem)
      (myV : List VehicleItem) (vstate avail : List Nat) (fuel_type : String)
      (i lunch_start lunch_duration : Nat),
      i < avail.length →
      0 < lunch_duration →
      lunch_start ≤ vstate.getD (avail.getD i 0) 0 + LOADING_TIME →
      vstate.getD (avail.getD i 0) 0 + LOADING_TIME < lunch_start + lunch_duration →
      (buildProblem gdt orders (avail.map fun k => myV.getD k default)
          (currentStarts vstate avail) fuel_type).startBound.getD i (0, 0)
        = (vstate.getD (avail.getD i 0) 0 + LOADING_TIME,
           vstate.getD (avail.getD i 0) 0 + LOADING_TIME) ∧
      vstate.getD (avail.getD i 0) 0 + LOADING_TIME ≠ lunch_start + lunch_duration := by
  intro gdt orders myV vstate avail fuel_type i ls d hi hd h1 h2
  refine ⟨startBound_getD gdt orders myV vstate avail fuel_type i hi, ?_⟩
  omega

/-- Witness for `C1_no_lunch_adjustment` at the `[720, 780)` window:
the pinned start is `(730, 730)`, not 780. -/
theorem C1_no_lunch_adjustment_witness :
    (0 : Nat) < 60 ∧ 720 ≤ ([700] : List Nat).getD (([0] : List Nat).getD 0 0) 0 + LOADING_TIME ∧
    (buildProblem gdtConst [] (([0] : List Nat).map fun k => ([] : List VehicleItem).getD k default)
        (currentStarts [700] [0]) "휘발유").startBound.getD 0 (0, 0)
      = (([700] : List Nat).getD (([0] : List Nat).getD 0 0) 0 + LOADING_TIME,
         ([700] : List Nat).getD (([0] : List Nat).getD 0 0) 0 + LOADING_TIME) :=
  ⟨by decide, by decide,
   (C1_no_lunch_adjustment gdtConst [] [] [700] [0] "휘발유" 0 720 60
      (by decide) (by decide) (by decide) (by decide)).1⟩

/-- `getD` after `set` at the same (in-range) index. -/
theorem getD_set_self (l : List Nat) (i : Nat) (a d : Nat) (h : i < l.length) :
    (l.set i a).getD i d = a := by
  rw [List.getD_eq_getElem _ _ (by simpa using h)]
  simp

/-- `getD` after `set` at a different index. -/
theorem getD_set_of_ne (l : List Nat) {i j : Nat} (a d : Nat) (h : i ≠ j) :
    (l.set i a).getD j d = l.getD j d := by
  by_cases hj : j < l.length
  · rw [List.getD_eq_getElem _ _ (by simpa using hj), List.getD_eq_getElem _ _ hj]
    exact List.getElem_set_ne h _
  · rw [List.getD_eq_default _ _ (by simpa using Nat.le_of_not_lt hj),
      List.getD_eq_default _ _ (Nat.le_of_not_lt hj)]

/-- Unfolding `applyRoutes` one route at a time. -/
theorem applyRoutes_cons (myV : List VehicleItem) (avail : List Nat)
    (round_num : Nat) (r : Route) (rest : List Route) (st : LoopState) :
    applyRoutes myV avail round_num (r :: rest) st
      = applyRoutes myV avail round_num rest
          { st with
            vstate := st.vstate.set (avail.getD r.internal_idx 0) r.end_time
            wload := st.wload.set (avail.getD r.internal_idx 0)
              (st.wload.getD (avail.getD r.internal_idx 0) 0 + r.total_load)
            sched := st.sched ++ [tagRoute r round_num
              (myV.getD (avail.getD r.internal_idx 0) default).vehicleNo] } := rfl

/-- `applyRoutes` leaves `vehicle_state` entries of untouched vehicles
unchanged. -/
theorem applyRoutes_vstate_untouched (myV : List VehicleItem) (avail : List Nat)
    (round_num : Nat) :
    ∀ (routes : List Route) (st : LoopState) (i d : Nat),
      (∀ r ∈ routes, avail.getD r.internal_idx 0 ≠ i) →
      (applyRoutes myV avail round_num routes st).vstate.getD i d
        = st.vstate.getD i d := by
  intro routes
  induction routes with
  | nil => intro st i d _; rfl
  | cons r rest ih =>
      intro st i d h
      rw [applyRoutes_cons, ih _ _ _ (fun x hx => h x (List.mem_cons_of_mem _ hx))]
      exact getD_set_of_ne _ _ _ (h r (List.mem_cons_self r rest))

/-- `applyRoutes` preserves the length of `vehicle_state`. -/
theorem applyRoutes_vstate_length (myV : List VehicleItem) (avail : List Nat)
    (round_num : Nat) :
    ∀ (routes : List Route) (st : LoopState),
      (applyRoutes myV avail round_num routes st).vstate.length
        = st.vstate.length := by
  intro routes
  induction routes with
  | nil => intro st; rfl
  | cons r rest ih =>
      intro st
      rw [applyRoutes_cons, ih]
      simp

/-- Claim C2 (corrected), counterexample: applying the diesel route
with completion time 600 stores 600 — not `600 + 30` — as the
vehicle's next `vehicle_state` entry (src/main.py line 388 assigns
`r['end_time']` with no reload added). -/
theorem C2_counterexample : ¬ C2claimProp := by
  intro h
  exact absurd (h [vehD] [0] 1 rD0 stD) (by decide)

/-- Claim C2, amended: the per-vehicle update sets `vehicle_state` to
exactly the route's completion time; the 30-minute reload is added
only when a later round computes the vehicle's effective departure,
which therefore equals completion + 30 — at least the completion time
plus the reload duration. -/
theorem C2_state_is_completion :
    ∀ (myV : List VehicleItem) (avail : List Nat) (round_num : Nat)
      (routes : List Route) (st : LoopState) (r : Route),
      r ∈ routes →
      (routes.map fun x => avail.getD x.internal_idx 0).Nodup →
      avail.getD r.internal_idx 0 < st.vstate.length →
      (applyRoutes myV avail round_num routes st).vstate.getD
          (avail.getD r.internal_idx 0) 0 = r.end_time ∧
      ∀ (avail3 : List Nat) (j : Nat), j < avail3.length →
        avail3.getD j 0 = avail.getD r.internal_idx 0 →
        (currentStarts (applyRoutes myV avail round_num routes st).vstate
            avail3).getD j 0
          = r.end_time + LOADING_TIME := by
  intro myV avail round_num routes
  have core : ∀ (routes : List Route) (st : LoopState) (r : Route),
      r ∈ routes →
      (routes.map fun x => avail.getD x.internal_idx 0).Nodup →
      avail.getD r.internal_idx 0 < st.vstate.length →
      (applyRoutes myV avail round_num routes st).vstate.getD
          (avail.getD r.internal_idx 0) 0 = r.end_time := by
    intro routes
    induction routes with
    | nil => intro st r h; cases h
    | cons r0 rest ih =>
        intro st r hmem hnd hlen
        rcases List.mem_cons.mp hmem with rfl | hmem
        · rw [applyRoutes_cons]
          have hnotin : ∀ x ∈ rest, avail.getD x.internal_idx 0
              ≠ avail.getD r.internal_idx 0 := by
            intro x hx
            have h0 := (List.nodup_cons.mp hnd).1
            intro hEq
            have hx' : avail.getD x.internal_idx 0
                ∈ rest.map fun y => avail.getD y.internal_idx 0 :=
              List.mem_map_of_mem _ hx
            rw [hEq] at hx'
            exact h0 hx'
          rw [applyRoutes_vstate_untouched _ _ _ _ _ _ _ hnotin]
          exact getD_set_self _ _ _ _ hlen
        · rw [applyRoutes_cons]
          apply ih _ _ hmem (List.nodup_cons.mp hnd).2
          simpa using hlen
  intro st r hmem hnd hlen
  refine ⟨core routes st r hmem hnd hlen, ?_⟩
  intro avail3 j hj hEq
  rw [currentStarts_getD _ _ _ hj, hEq, core routes st r hmem hnd hlen]

/-- Witness for `C2_state_is_completion`: the concrete diesel route
leaves the state at exactly its completion time 600. -/
theorem C2_state_is_completion_witness :
    rD0 ∈ [rD0] ∧
    (([rD0].map fun x => ([0] : List Nat).getD x.internal_idx 0).Nodup) ∧
    ([0] : List Nat).getD rD0.internal_idx 0 < stD.vstate.length ∧
    (applyRoutes [vehD] [0] 1 [rD0] stD).vstate.getD
        (([0] : List Nat).getD rD0.internal_idx 0) 0 = rD0.end_time :=
  ⟨by decide, by decide, by decide,
   (C2_state_is_completion [vehD] [0] 1 [rD0] stD rD0
      (by decide) (by decide) (by decide)).1⟩

/- ==========================================
   10. Theorems — one route per vehicle per round (claim C4)
   ========================================== -/

/-- Claim C4 (corrected), counterexample: with two 알뜰 orders of 50
and the capacity-50 dedicated vehicle 제주96바7408, a conformant
solver serves order A in the 알뜰 phase and the leftover order B in
the general phase of the *same* round (no SK orders remain, so 7408 is
not excluded), producing two round-1 routes tagged with the same
vehicle id. -/
theorem C4_counterexample : ¬ C4claimProp := by
  intro h
  have hv : ValidOracle solverC4 := by
    intro p s hp
    unfold solverC4 at hp
    by_cases h1 : p = P1
    · rw [if_pos h1] at hp
      injection hp with hp
      subst h1
      rw [← hp]
      decide
    · rw [if_neg h1] at hp
      by_cases h2 : p = P2
      · rw [if_pos h2] at hp
        injection hp with hp
        subst h2
        rw [← hp]
        decide
      · rw [if_neg h2] at hp
        cases hp
  have h2 := h gdtConst solverC4 [ordA, ordB] [veh7408] "휘발유" hv
  exact absurd h2 (by decide)

/-- Kept routes of one extraction carry pairwise distinct
`internal_idx` (each comes from its own vehicle slot). -/
theorem extractRoutes_pairwise_internal (p : Problem) (sol : Solution) :
    (extractRoutes p sol).Pairwise fun a b => a.internal_idx ≠ b.internal_idx := by
  unfold extractRoutes
  rw [List.pairwise_filterMap]
  have hlt : (List.range p.nveh).Pairwise (· < ·) := List.pairwise_lt_range p.nveh
  refine hlt.imp ?_
  intro v w hvw a ha b hb
  rw [(extractRoute_some_elim (Option.mem_def.mp ha)).1,
    (extractRoute_some_elim (Option.mem_def.mp hb)).1]
  omega

/-- A kept route's `internal_idx` indexes into the vehicle list. -/
theorem extractRoutes_internal_lt {p : Problem} {sol : Solution} {r : Route}
    (h : r ∈ extractRoutes p sol) : r.internal_idx < p.nveh := by
  obtain ⟨v, hv, hext⟩ := List.mem_filterMap.mp h
  rw [(extractRoute_some_elim hext).1]
  exact List.mem_range.mp hv

/-- The routes of one `run_ortools` call have pairwise distinct
`internal_idx`, each below the vehicle count. -/
theorem run_ortools_routes_shape (gdt : String → String → Int)
    (solver : Problem → Option Solution) (orders : List OrderItem)
    (vehicles : List VehicleItem) (starts : List Nat) (fuel_type : String) :
    ((run_ortools gdt solver orders vehicles starts fuel_type).1.Pairwise
      fun a b => a.internal_idx ≠ b.internal_idx) ∧
    ∀ r ∈ (run_ortools gdt solver orders vehicles starts fuel_type).1,
      r.internal_idx < vehicles.length := by
  cases hsol : solver (buildProblem gdt orders vehicles starts fuel_type) with
  | none =>
      have hrun : (run_ortools gdt solver orders vehicles starts fuel_type).1 = [] := by
        simp only [run_ortools, hsol]
      rw [hrun]
      exact ⟨List.Pairwise.nil, by intro r hr; cases hr⟩
  | some sol =>
      have hrun : (run_ortools gdt solver orders vehicles starts fuel_type).1
          = extractRoutes (buildProblem gdt orders vehicles starts fuel_type) sol := by
        simp only [run_ortools, hsol]
      rw [hrun]
      refine ⟨extractRoutes_pairwise_internal _ _, ?_⟩
      intro r hr
      have := extractRoutes_internal_lt hr
      simpa [buildProblem] using this

/-- Fields of a tagged route. -/
theorem tagRoute_fields (r : Route) (round_num : Nat) (vid : String) :
    (tagRoute r round_num vid).round = round_num ∧
    (tagRoute r round_num vid).vehicle_id = vid := ⟨rfl, rfl⟩

/-- A fold that appends one tagged route per input route accumulates
exactly the mapped list onto the schedule. -/
theorem foldl_sched (g : Route → TaggedRoute) (upd : LoopState → Route → LoopState)
    (hupd : ∀ acc r, (upd acc r).sched = acc.sched ++ [g r]) :
    ∀ (routes : List Route) (st : LoopState),
      (routes.foldl upd st).sched = st.sched ++ routes.map g := by
  intro routes
  induction routes with
  | nil => intro st; simp
  | cons r rest ih =>
      intro st
      rw [List.foldl_cons, ih, hupd]
      simp

/-- The schedule after `applyRoutes`. -/
theorem applyRoutes_sched (myV : List VehicleItem) (avail : List Nat)
    (round_num : Nat) (routes : List Route) (st : LoopState) :
    (applyRoutes myV avail round_num routes st).sched
      = st.sched ++ routes.map fun r =>
          tagRoute r round_num (myV.getD (avail.getD r.internal_idx 0) default).vehicleNo := by
  exact foldl_sched _ _ (fun acc r => rfl) routes st

/-- Membership in the sorted available list is membership in the
filtered range. -/
theorem mem_sortByWorkload {w l : List Nat} {i : Nat} :
    i ∈ sortByWorkload w l ↔ i ∈ l := List.mem_insertionSort _

/-- Sorting by workload preserves distinctness. -/
theorem sortByWorkload_nodup {w l : List Nat} (h : l.Nodup) :
    (sortByWorkload w l).Nodup :=
  (List.perm_insertionSort _ l).nodup_iff.mpr h

/-- The available-vehicle index list is duplicate-free and in range. -/
theorem availableIndices_nodup (n : Nat) (vs : List Nat) :
    (availableIndices n vs).Nodup :=
  (List.nodup_range n).filter _

theorem mem_availableIndices {n : Nat} {vs : List Nat} {i : Nat}
    (h : i ∈ availableIndices n vs) : i < n :=
  List.mem_range.mp (List.mem_filter.mp h).1

/-- Distinct slots of a duplicate-free in-range index list name
vehicles with distinct ids, provided the fleet's ids are themselves
duplicate-free. -/
theorem distinct_vehicle_ids (myV : List VehicleItem)
    (hndid : (myV.map (·.vehicleNo)).Nodup) (avail : List Nat)
    (hnd : avail.Nodup) (hlt : ∀ i ∈ avail, i < myV.length)
    {i j : Nat} (hi : i < avail.length) (hj : j < avail.length) (hij : i ≠ j) :
    (myV.getD (avail.getD i 0) default).vehicleNo
      ≠ (myV.getD (avail.getD j 0) default).vehicleNo := by
  have ha : avail.getD i 0 = avail[i] := List.getD_eq_getElem _ _ hi
  have hb : avail.getD j 0 = avail[j] := List.getD_eq_getElem _ _ hj
  have hne : avail[i] ≠ avail[j] := by
    intro hEq
    exact hij (hnd.getElem_inj_iff.mp hEq)
  have hia : avail[i] < myV.length := hlt _ (List.getElem_mem hi)
  have hja : avail[j] < myV.length := hlt _ (List.getElem_mem hj)
  have hiam : avail[i] < (myV.map (·.vehicleNo)).length := by simpa using hia
  have hjam : avail[j] < (myV.map (·.vehicleNo)).length := by simpa using hja
  rw [ha, hb, List.getD_eq_getElem _ _ hia, List.getD_eq_getElem _ _ hja]
  intro hEq
  have hmapne : (myV.map (·.vehicleNo))[avail[i]]
      ≠ (myV.map (·.vehicleNo))[avail[j]] := by
    intro hEq2
    exact hne (hndid.getElem_inj_iff.mp hEq2)
  rw [List.getElem_map, List.getElem_map] at hmapne
  exact hmapne hEq

/-- `selectAvail` preserves distinctness and membership. -/
theorem selectAvail_nodup (fuel_type : String) (prefIdx : Option Nat)
    (remaining_orders : List OrderItem) {avail2b : List Nat}
    (h : avail2b.Nodup) :
    (selectAvail fuel_type prefIdx remaining_orders avail2b).Nodup := by
  cases prefIdx with
  | none => simpa [selectAvail] using h
  | some p =>
      simp only [selectAvail]
      split
      · exact h.filter _
      · exact h

theorem mem_selectAvail {fuel_type : String} {prefIdx : Option Nat}
    {remaining_orders : List OrderItem} {avail2b : List Nat} {i : Nat}
    (h : i ∈ selectAvail fuel_type prefIdx remaining_orders avail2b) :
    i ∈ avail2b := by
  cases prefIdx with
  | none => simpa [selectAvail] using h
  | some p =>
      simp only [selectAvail] at h
      split at h
      · exact (List.mem_filter.mp h).1
      · exact h

/-- The 알뜰 phase appends to the schedule only routes tagged with the
current round and the dedicated vehicle's id, and only in the gasoline
family. -/
theorem prefPhase_sched (gdt : String → String → Int)
    (solver : Problem → Option Solution) (fuel_type : String)
    (myV : List VehicleItem) (prefIdx : Option Nat) (round_num : Nat)
    (avail1 : List Nat) (st : LoopState)
    (hp7408 : ∀ p, prefIdx = some p →
      (myV.getD p default).vehicleNo = "제주96바7408") :
    ∃ B, (prefPhase gdt solver fuel_type myV prefIdx round_num avail1 st).2.sched
        = st.sched ++ B
      ∧ ∀ b ∈ B, b.round = round_num ∧ b.vehicle_id = "제주96바7408"
          ∧ fuel_type = "휘발유" := by
  cases prefIdx with
  | none => exact ⟨[], by simp [prefPhase], by simp⟩
  | some p =>
      have hvid : (myV.getD p default).vehicleNo = "제주96바7408" := hp7408 p rfl
      simp only [prefPhase]
      split
      case isFalse => exact ⟨[], by simp, by simp⟩
      case isTrue hcond =>
        split
        case isTrue => exact ⟨[], by simp, by simp⟩
        case isFalse =>
          split
          case isTrue => exact ⟨[], by simp, by simp⟩
          case isFalse =>
            refine ⟨(run_ortools gdt solver
                (sortOrders gdt (st.pending.filter fun o => o.brand = "알뜰"))
                [myV.getD p default] (currentStarts st.vstate [p]) fuel_type).1.map
                  (fun r => tagRoute r round_num (myV.getD p default).vehicleNo),
              ?_, ?_⟩
            · exact foldl_sched _ _ (fun acc r => rfl) _ _
            · intro b hb
              obtain ⟨r, _, hr⟩ := List.mem_map.mp hb
              rw [← hr]
              exact ⟨rfl, hvid, hcond.1⟩

/-- One round appends to the schedule a block of routes all tagged
with the current round number, pairwise satisfying the amended-C4
relation: only the dedicated gasoline vehicle may appear twice. -/
theorem roundStep_sched (gdt : String → String → Int)
    (solver : Problem → Option Solution) (fuel_type : String)
    (myV : List VehicleItem) (prefIdx : Option Nat) (round_num : Nat)
    (st : LoopState)
    (hndid : (myV.map (·.vehicleNo)).Nodup)
    (hp7408 : ∀ p, prefIdx = some p →
      (myV.getD p default).vehicleNo = "제주96바7408") :
    ∃ B, (roundStep gdt solver fuel_type myV prefIdx round_num st).1.sched
        = st.sched ++ B
      ∧ (∀ b ∈ B, b.round = round_num)
      ∧ B.Pairwise (sameRoundConflict fuel_type) := by
  obtain ⟨Bp, hBp, hBpAll⟩ := prefPhase_sched gdt solver fuel_type myV prefIdx
    round_num (availableIndices myV.length st.vstate) st hp7408
  have hBpPair : Bp.Pairwise (sameRoundConflict fuel_type) :=
    List.pairwise_of_forall_mem_list fun a ha _ _ _ _ =>
      ⟨(hBpAll a ha).2.1, (hBpAll a ha).2.2⟩
  simp only [roundStep]
  set pr := prefPhase gdt solver fuel_type myV prefIdx round_num
    (availableIndices myV.length st.vstate) st with hprdef
  set RO := sortOrders gdt pr.1 with hROdef
  set A2a := availableIndices myV.length pr.2.vstate with hA2adef
  set A2b := sortByWorkload pr.2.wload A2a with hA2bdef
  set A2 := selectAvail fuel_type prefIdx RO A2b with hA2def
  set CV := A2.map (fun i => myV.getD i default) with hCVdef
  set CS := currentStarts pr.2.vstate A2 with hCSdef
  set res := run_ortools gdt solver RO CV CS fuel_type with hresdef
  have hA2nodup : A2.Nodup :=
    selectAvail_nodup _ _ _ (sortByWorkload_nodup (availableIndices_nodup _ _))
  have hA2lt : ∀ i ∈ A2, i < myV.length := fun i hi =>
    mem_availableIndices (mem_sortByWorkload.mp (mem_selectAvail hi))
  split
  · exact ⟨[], by simp, by simp, List.Pairwise.nil⟩
  · split
    · exact ⟨[], by simp, by simp, List.Pairwise.nil⟩
    · split
      · exact ⟨Bp, hBp, fun b hb => (hBpAll b hb).1, hBpPair⟩
      · split
        · exact ⟨Bp, hBp, fun b hb => (hBpAll b hb).1, hBpPair⟩
        · split
          · exact ⟨Bp, hBp, fun b hb => (hBpAll b hb).1, hBpPair⟩
          · refine ⟨Bp ++ res.1.map (fun r => tagRoute r round_num
                (myV.getD (A2.getD r.internal_idx 0) default).vehicleNo),
              ?_, ?_, ?_⟩
            · show (applyRoutes myV A2 round_num res.1 pr.2).sched = _
              rw [applyRoutes_sched, hBp, List.append_assoc]
            · intro b hb
              rcases List.mem_append.mp hb with hb | hb
              · exact (hBpAll b hb).1
              · obtain ⟨r, _, hr⟩ := List.mem_map.mp hb
                rw [← hr]
                rfl
            · rw [List.pairwise_append]
              refine ⟨hBpPair, ?_, ?_⟩
              · rw [List.pairwise_map]
                refine List.Pairwise.imp_of_mem ?_
                  (run_ortools_routes_shape gdt solver RO CV CS fuel_type).1
                intro a b ha hb hne
                simp only [sameRoundConflict, tagRoute]
                intro _ hid
                have hia : a.internal_idx < A2.length := by
                  have h := (run_ortools_routes_shape gdt solver RO CV CS fuel_type).2 a ha
                  rw [hCVdef] at h
                  simpa using h
                have hib : b.internal_idx < A2.length := by
                  have h := (run_ortools_routes_shape gdt solver RO CV CS fuel_type).2 b hb
                  rw [hCVdef] at h
                  simpa using h
                exact absurd hid
                  (distinct_vehicle_ids myV hndid A2 hA2nodup hA2lt hia hib hne)
              · intro a ha b hb
                exact fun _ _ => ⟨(hBpAll a ha).2.1, (hBpAll a ha).2.2⟩

/-- Pairwise safety is preserved across the whole round loop:
schedule entries of earlier rounds carry strictly smaller round tags,
so conflicts can only arise inside one round's block. -/
theorem runRounds_pairwise (gdt : String → String → Int)
    (solver : Problem → Option Solution) (fuel_type : String)
    (myV : List VehicleItem) (prefIdx : Option Nat)
    (hndid : (myV.map (·.vehicleNo)).Nodup)
    (hp7408 : ∀ p, prefIdx = some p →
      (myV.getD p default).vehicleNo = "제주96바7408") :
    ∀ (k round_num : Nat) (st : LoopState),
      st.sched.Pairwise (sameRoundConflict fuel_type) →
      (∀ b ∈ st.sched, b.round < round_num) →
      ((runRounds gdt solver fuel_type myV prefIdx k round_num st).sched.Pairwise
        (sameRoundConflict fuel_type)) := by
  intro k
  induction k with
  | zero => intro rn st hP _; exact hP
  | succ n ih =>
      intro rn st hP hlt
      obtain ⟨B, hB, hBr, hBpair⟩ :=
        roundStep_sched gdt solver fuel_type myV prefIdx rn st hndid hp7408
      have hcomb : ((roundStep gdt solver fuel_type myV prefIdx rn st).1.sched).Pairwise
          (sameRoundConflict fuel_type) := by
        rw [hB, List.pairwise_append]
        refine ⟨hP, hBpair, ?_⟩
        intro a ha b hb hround
        have h1 := hlt a ha
        have h2 := hBr b hb
        omega
      have hcombLt : ∀ b ∈ (roundStep gdt solver fuel_type myV prefIdx rn st).1.sched,
          b.round < rn + 1 := by
        rw [hB]
        intro b hb
        rcases List.mem_append.mp hb with hb | hb
        · exact Nat.lt_succ_of_lt (hlt b hb)
        · rw [hBr b hb]
          omega
      simp only [runRounds]
      split
      · exact ih (rn + 1) _ hcomb hcombLt
      · exact hcomb

/-- Claim C4, amended: assuming the family's vehicle ids are
pairwise distinct, two distinct routes of the final schedule can share
a round number and a vehicle id only for the dedicated gasoline
vehicle 제주96바7408 in the 휘발유 family (where the 알뜰 phase and
the general phase of one round may each dispatch it); for every other
vehicle — and for the entire diesel family — at most one route per
round and vehicle is appended. -/
theorem C4_one_route_per_round :
    ∀ (gdt : String → String → Int) (solver : Problem → Option Solution)
      (orders : List OrderItem) (vehicles : List VehicleItem) (fuel_type : String),
      ((vehicles.filter fun v => v.fuelKind = fuel_type).map (·.vehicleNo)).Nodup →
      (solve_multitrip_vrp gdt solver orders vehicles fuel_type).routes.Pairwise
        (sameRoundConflict fuel_type) := by
  intro gdt solver orders vehicles fuel_type hnd
  simp only [solve_multitrip_vrp]
  split
  · exact List.Pairwise.nil
  · have hp : ∀ p, (if fuel_type = "휘발유"
        then (vehicles.filter fun v => v.fuelKind = fuel_type).findIdx?
          (fun v => v.vehicleNo = "제주96바7408")
        else none) = some p →
        ((vehicles.filter fun v => v.fuelKind = fuel_type).getD p default).vehicleNo
          = "제주96바7408" := by
      intro p hp
      split at hp
      · obtain ⟨hlt, hfi⟩ := List.findIdx?_eq_some_iff_findIdx_eq.mp hp
        have hw : (vehicles.filter fun v => v.fuelKind = fuel_type).findIdx
            (fun v => v.vehicleNo = "제주96바7408")
            < (vehicles.filter fun v => v.fuelKind = fuel_type).length := by
          rw [hfi]
          exact hlt
        have hpred := @List.findIdx_getElem _ _ _ hw
        simp only [hfi] at hpred
        rw [List.getD_eq_getElem _ _ hlt]
        exact of_decide_eq_true hpred
      · cases hp
    exact runRounds_pairwise gdt solver fuel_type _ _ hnd hp 5 1 _
      List.Pairwise.nil (fun b hb => absurd hb (List.not_mem_nil b))

/-- Witness for `C4_one_route_per_round` on the concrete double
dispatch scenario: the two same-round routes both belong to
제주96바7408, as the amended claim allows. -/
theorem C4_one_route_per_round_witness :
    (([veh7408].filter fun v => v.fuelKind = "휘발유").map (·.vehicleNo)).Nodup ∧
    (solve_multitrip_vrp gdtConst solverC4 [ordA, ordB] [veh7408] "휘발유").routes.Pairwise
      (sameRoundConflict "휘발유") :=
  ⟨by decide,
   C4_one_route_per_round gdtConst solverC4 [ordA, ordB] [veh7408] "휘발유" (by decide)⟩
